import Mathlib

/-!
Shallow embedding of the aggregation and query-construction layer of a
personal-finance backend (controllers for income, expense, project and
savings-goal records plus the shared pagination/date helpers), together
with proofs of the specification claims about it.
-/

namespace Finance

/-- Calendar date-time as stored on records; ordering is by the
chronological key below (mirrors JavaScript Date comparison). -/
structure DateTime where
  year : Nat
  month : Nat
  day : Nat
  hour : Nat
  minute : Nat
  second : Nat
  ms : Nat
deriving DecidableEq, Repr

/-- Chronological linearization of a date-time (months have at most 31
days, hours 0-23 and so on, so this key is strictly monotone in calendar
order for valid dates). -/
def DateTime.key (d : DateTime) : Nat :=
  (((((d.year * 13 + d.month) * 32 + d.day) * 24 + d.hour) * 60 + d.minute) * 60
      + d.second) * 1000 + d.ms

/-- Mirrors endDate.setHours(23, 59, 59, 999) in getDateRange: move the
instant to the last millisecond of its calendar day. -/
def setEndOfDay (d : DateTime) : DateTime :=
  { d with hour := 23, minute := 59, second := 59, ms := 999 }

/-- getDateRange from utils/helpers.ts: pass the start date through
unchanged, normalize the end date to the end of its calendar day.
A missing query parameter is modelled as none. -/
def getDateRange (startDate endDate : Option DateTime) :
    Option DateTime × Option DateTime :=
  (startDate, endDate.map setEndOfDay)

/-- JavaScript truthiness of an optional string query parameter:
present and non-empty. -/
def strTruthy : Option String → Bool
  | none => false
  | some s => !(s == "")

/-- Closed category enum of income entries (incomeController.ts). -/
def incomeCategories : List String := ["project-payment", "bonus", "other"]

/-- Closed category enum of expense entries (expenseController.ts). -/
def expenseCategories : List String :=
  ["software", "subscriptions", "equipment", "marketing", "other"]

/-- Closed status enum of projects (projectController.ts). -/
def projectStatuses : List String := ["active", "completed", "on-hold"]

/-- Closed priority enum of savings goals (savingsController.ts). -/
def savingsPriorities : List String := ["low", "medium", "high"]

/-- Query descriptor built by the income/expense list endpoints and the
stats endpoints: mandatory owner/active scoping plus optional filters. -/
structure EntryQuery where
  userId : String
  isActive : Bool
  projectId : Option String
  category : Option String
  dateGte : Option DateTime
  dateLte : Option DateTime
deriving DecidableEq, Repr

/-- An income or expense entry record. -/
structure Entry where
  userId : String
  projectId : String
  amount : Int
  description : String
  date : DateTime
  category : String
  isActive : Bool
deriving DecidableEq, Repr

/-- Whether an entry satisfies a query descriptor (conjunction of the
constraints of the descriptor, as the store evaluates them). -/
def entryMatches (q : EntryQuery) (e : Entry) : Bool :=
  e.userId == q.userId && e.isActive == q.isActive
    && (match q.projectId with | none => true | some p => e.projectId == p)
    && (match q.category with | none => true | some c => e.category == c)
    && (match q.dateGte with | none => true | some s => s.key ≤ e.date.key)
    && (match q.dateLte with | none => true | some t => e.date.key ≤ t.key)

/-- Query construction of getIncomeEntries (incomeController.ts lines
29-44): start from the mandatory owner/active scope, add projectId and
recognized category filters, then the normalized date range. -/
def buildIncomeQuery (userId : String) (projectId category : Option String)
    (startDate endDate : Option DateTime) : EntryQuery :=
  let dr := getDateRange startDate endDate
  { userId := userId, isActive := true,
    projectId := if strTruthy projectId then projectId else none,
    category :=
      match category with
      | some c => if c ≠ "" ∧ incomeCategories.contains c then some c else none
      | none => none,
    dateGte := dr.1, dateLte := dr.2 }

/-- Query construction of getExpenseEntries (expenseController.ts lines
29-44), identical to the income one up to the category enum. -/
def buildExpenseQuery (userId : String) (projectId category : Option String)
    (startDate endDate : Option DateTime) : EntryQuery :=
  let dr := getDateRange startDate endDate
  { userId := userId, isActive := true,
    projectId := if strTruthy projectId then projectId else none,
    category :=
      match category with
      | some c => if c ≠ "" ∧ expenseCategories.contains c then some c else none
      | none => none,
    dateGte := dr.1, dateLte := dr.2 }

/-- Match query of the stats and by-project endpoints of the income and
expense controllers: owner/active scope plus the normalized date range. -/
def buildStatsMatch (userId : String) (startDate endDate : Option DateTime) :
    EntryQuery :=
  let dr := getDateRange startDate endDate
  { userId := userId, isActive := true, projectId := none, category := none,
    dateGte := dr.1, dateLte := dr.2 }

/-- Query descriptor built by getSavingsGoals. -/
structure SavingsQuery where
  userId : String
  isActive : Bool
  isCompleted : Option Bool
  category : Option String
  priority : Option String
deriving DecidableEq, Repr

/-- A savings goal record. -/
structure SavingsGoal where
  userId : String
  title : String
  targetAmount : Int
  currentAmount : Int
  deadline : DateTime
  category : String
  priority : String
  isActive : Bool
  isCompleted : Bool
deriving DecidableEq, Repr

/-- Whether a savings goal satisfies a savings query descriptor. -/
def goalMatches (q : SavingsQuery) (g : SavingsGoal) : Bool :=
  g.userId == q.userId && g.isActive == q.isActive
    && (match q.isCompleted with | none => true | some b => g.isCompleted == b)
    && (match q.category with | none => true | some c => g.category == c)
    && (match q.priority with | none => true | some p => g.priority == p)

/-- Query construction of getSavingsGoals (savingsController.ts lines
28-45): status maps onto an isCompleted constraint, category is applied
verbatim when truthy, priority only when recognized. -/
def buildSavingsQuery (userId : String) (status category priority : Option String) :
    SavingsQuery :=
  { userId := userId, isActive := true,
    isCompleted :=
      match status with
      | some s =>
          if s = "active" then some false
          else if s = "completed" then some true
          else none
      | none => none,
    category :=
      match category with
      | some c => if c ≠ "" then some c else none
      | none => none,
    priority :=
      match priority with
      | some p => if p ≠ "" ∧ savingsPriorities.contains p then some p else none
      | none => none }

/-- Query descriptor built by getProjects. -/
structure ProjectQuery where
  userId : String
  isActive : Bool
  status : Option String
deriving DecidableEq, Repr

/-- A project record (the fields the claims touch). -/
structure Project where
  id : String
  userId : String
  name : String
  clientName : String
  status : String
  isActive : Bool
deriving DecidableEq, Repr

/-- Whether a project satisfies a project query descriptor. -/
def projectMatches (q : ProjectQuery) (p : Project) : Bool :=
  p.userId == q.userId && p.isActive == q.isActive
    && (match q.status with | none => true | some s => p.status == s)

/-- Query construction of getProjects (projectController.ts lines 29-32):
owner/active scope plus a recognized status filter. -/
def buildProjectQuery (userId : String) (status : Option String) : ProjectQuery :=
  { userId := userId, isActive := true,
    status :=
      match status with
      | some s => if s ≠ "" ∧ projectStatuses.contains s then some s else none
      | none => none }

/-- Pagination metadata (utils/helpers.ts PaginationResult). -/
structure PaginationResult where
  page : Nat
  limit : Nat
  total : Nat
  pages : Nat
  hasNext : Bool
  hasPrev : Bool
deriving DecidableEq, Repr

/-- calculatePagination from utils/helpers.ts: pages is the ceiling of
total / limit, hasNext and hasPrev compare the requested page against it. -/
def calculatePagination (total page limit : Nat) : PaginationResult :=
  let pages := (total + limit - 1) / limit
  { page := page, limit := limit, total := total, pages := pages,
    hasNext := decide (page < pages), hasPrev := decide (page > 1) }

/-- getSkipValue from utils/helpers.ts. -/
def getSkipValue (page limit : Nat) : Nat := (page - 1) * limit

/-- Error classes thrown by the controllers (middleware/errorHandler). -/
inductive ApiError where
  | badRequest (msg : String)
  | notFound (msg : String)
  | unauthorized (msg : String)
  | conflict (msg : String)
deriving DecidableEq, Repr

/-- The pre-save hook of savingsGoalSchema (models, savings schema lines
220-226): every persist flips isCompleted to true once currentAmount has
reached targetAmount; it never flips it back. -/
def saveGoal (g : SavingsGoal) : SavingsGoal :=
  if g.currentAmount ≥ g.targetAmount ∧ g.isCompleted = false then
    { g with isCompleted := true }
  else g

/-- Instance method addProgress on the savings schema: bump the amount
and persist (the hook re-evaluates completion). -/
def SavingsGoal.addProgress (g : SavingsGoal) (amount : Int) : SavingsGoal :=
  saveGoal { g with currentAmount := g.currentAmount + amount }

/-- Instance method subtractProgress on the savings schema: the internal
clamp-to-zero helper. -/
def SavingsGoal.subtractProgress (g : SavingsGoal) (amount : Int) : SavingsGoal :=
  saveGoal { g with currentAmount := max 0 (g.currentAmount - amount) }

/-- Instance method markCompleted on the savings schema. -/
def SavingsGoal.markCompleted (g : SavingsGoal) : SavingsGoal :=
  saveGoal { g with isCompleted := true }

/-- Instance method markActive on the savings schema: the only operation
that sets isCompleted back to false (the persist hook may immediately
re-complete it while currentAmount still reaches targetAmount). -/
def SavingsGoal.markActive (g : SavingsGoal) : SavingsGoal :=
  saveGoal { g with isCompleted := false }

/-- updateSavingsGoalProgress (savingsController.ts lines 293-336) after
the owner-scoped lookup found the goal g: validate amount and action,
apply add or subtract, reject an overdraft before touching the goal, and
persist through the completion hook on success. -/
def updateSavingsGoalProgress (g : SavingsGoal) (amount : Int) (action : String) :
    Except ApiError SavingsGoal :=
  if amount ≤ 0 then
    .error (.badRequest "Amount must be greater than 0")
  else if action ≠ "add" ∧ action ≠ "subtract" then
    .error (.badRequest "Action must be either add or subtract")
  else if action = "add" then
    .ok (saveGoal { g with currentAmount := g.currentAmount + amount })
  else
    let newAmount := g.currentAmount - amount
    if newAmount < 0 then
      .error (.badRequest "Cannot subtract more than current amount")
    else
      .ok (saveGoal { g with currentAmount := newAmount })

/-- The goal as stored after a progress-update request: unchanged when
the operation failed, the persisted goal when it succeeded. -/
def storedAfterProgress (g : SavingsGoal) (amount : Int) (action : String) :
    SavingsGoal :=
  match updateSavingsGoalProgress g amount action with
  | .ok g2 => g2
  | .error _ => g

/-- createSavingsGoal (savingsController.ts lines 164-211): validate the
input, build goalData with isCompleted initialized to false, and persist
it through the completion hook. now is the clock read by the deadline
check. -/
def createSavingsGoal (userId : String) (title : String)
    (targetAmount currentAmount : Int) (deadline : DateTime)
    (category priority : String) (now : DateTime) :
    Except ApiError SavingsGoal :=
  if title = "" ∨ targetAmount = 0 then
    .error (.badRequest "Title, target amount, and deadline are required")
  else if targetAmount ≤ 0 then
    .error (.badRequest "Target amount must be greater than 0")
  else if currentAmount ≠ 0 ∧ currentAmount < 0 then
    .error (.badRequest "Current amount cannot be negative")
  else if deadline.key ≤ now.key then
    .error (.badRequest "Deadline must be in the future")
  else
    .ok (saveGoal
      { userId := userId, title := title, targetAmount := targetAmount,
        currentAmount := if currentAmount = 0 then 0 else currentAmount,
        deadline := deadline, category := category,
        priority := if priority = "" then "medium" else priority,
        isActive := true, isCompleted := false })

/-- Project.findOne on the owner/active-scoped id, as used by every
project-reference check and join. -/
def findProject (projects : List Project) (projectId userId : String) :
    Option Project :=
  projects.find? (fun p => p.id == projectId && p.userId == userId && p.isActive)

/-- Input of createIncomeEntry / createExpenseEntry (required fields;
absent or falsy values are the empty string or a zero amount). -/
structure CreateEntryInput where
  projectId : String
  amount : Int
  description : String
  date : DateTime
  category : String
deriving DecidableEq, Repr

/-- createIncomeEntry (incomeController.ts lines 123-173) given the
project and entry tables of the caller: validate, check the referenced
project exists, is active and is owned by the caller, and only then
append the new entry. -/
def createIncomeEntry (projects : List Project) (entries : List Entry)
    (userId : String) (i : CreateEntryInput) : Except ApiError (List Entry) :=
  if i.projectId = "" ∨ i.amount = 0 ∨ i.description = "" then
    .error (.badRequest "Project ID, amount, and description are required")
  else if i.amount ≤ 0 then
    .error (.badRequest "Amount must be greater than 0")
  else
    match findProject projects i.projectId userId with
    | none => .error (.notFound "Project not found")
    | some _ =>
        .ok (entries ++
          [{ userId := userId, projectId := i.projectId, amount := i.amount,
             description := i.description, date := i.date,
             category := i.category, isActive := true }])

/-- createExpenseEntry (expenseController.ts lines 123-175): identical
ownership check; the receipt URL does not take part in it. -/
def createExpenseEntry (projects : List Project) (entries : List Entry)
    (userId : String) (i : CreateEntryInput) : Except ApiError (List Entry) :=
  if i.projectId = "" ∨ i.amount = 0 ∨ i.description = "" then
    .error (.badRequest "Project ID, amount, and description are required")
  else if i.amount ≤ 0 then
    .error (.badRequest "Amount must be greater than 0")
  else
    match findProject projects i.projectId userId with
    | none => .error (.notFound "Project not found")
    | some _ =>
        .ok (entries ++
          [{ userId := userId, projectId := i.projectId, amount := i.amount,
             description := i.description, date := i.date,
             category := i.category, isActive := true }])

/-- The entry table as stored after a create request: unchanged when the
request failed. -/
def storedAfterCreateIncome (projects : List Project) (entries : List Entry)
    (userId : String) (i : CreateEntryInput) : List Entry :=
  match createIncomeEntry projects entries userId i with
  | .ok es => es
  | .error _ => entries

/-- Optional fields of updateIncomeEntry / updateExpenseEntry. -/
structure UpdateEntryInput where
  projectId : Option String
  amount : Option Int
  description : Option String
  date : Option DateTime
  category : Option String
deriving DecidableEq, Repr

/-- updateIncomeEntry (incomeController.ts lines 180-236) after the
owner-scoped lookup found entry e: validate the provided fields, re-check
ownership of a changed project reference, then apply the truthy updates
and persist. -/
def updateIncomeEntry (projects : List Project) (e : Entry) (userId : String)
    (u : UpdateEntryInput) : Except ApiError Entry :=
  if u.amount.isSome ∧ u.amount.getD 0 ≤ 0 then
    .error (.badRequest "Amount must be greater than 0")
  else if strTruthy u.category ∧ ¬ incomeCategories.contains (u.category.getD "") then
    .error (.badRequest "Invalid category value")
  else if strTruthy u.projectId ∧ u.projectId.getD "" ≠ e.projectId ∧
      (findProject projects (u.projectId.getD "") userId).isNone then
    .error (.notFound "Project not found")
  else
    .ok { e with
      projectId := if strTruthy u.projectId then u.projectId.getD "" else e.projectId,
      amount := if u.amount.isSome then u.amount.getD 0 else e.amount,
      description := if strTruthy u.description then u.description.getD "" else e.description,
      date := if u.date.isSome then u.date.getD e.date else e.date,
      category := if strTruthy u.category then u.category.getD "" else e.category }

/-- The entry as stored after an update request: unchanged when the
request failed. -/
def storedAfterUpdateIncome (projects : List Project) (e : Entry)
    (userId : String) (u : UpdateEntryInput) : Entry :=
  match updateIncomeEntry projects e userId u with
  | .ok e2 => e2
  | .error _ => e

/-! Sorting used to model the sort stages of the aggregation pipelines. -/

/-- Insert an element in front of the first list element it is below. -/
def insertBy (le : α → α → Bool) (a : α) : List α → List α
  | [] => [a]
  | b :: bs => if le a b then a :: b :: bs else b :: insertBy le a bs

/-- Insertion sort by a boolean comparison. -/
def sortBy (le : α → α → Bool) : List α → List α
  | [] => []
  | a :: as => insertBy le a (sortBy le as)

/-! The monthly trend aggregation of getIncomeStats / getExpenseStats
(group by calendar year and month of the date, sum and count, sort
ascending, label YYYY-MM with a zero-padded month). -/

/-- Grouping key of the monthly trend: calendar year and month. -/
def monthKey (e : Entry) : Nat × Nat := (e.date.year, e.date.month)

/-- Chronological (year, month) comparison used by the trend sort stage. -/
def monthKeyLe (a b : Nat × Nat) : Bool :=
  decide (a.1 < b.1) || (a.1 == b.1 && decide (a.2 ≤ b.2))

/-- month.toString().padStart(2, the zero digit). -/
def pad2 (n : Nat) : String := if n < 10 then "0" ++ toString n else toString n

/-- The YYYY-MM bucket label. -/
def monthLabel (k : Nat × Nat) : String := toString k.1 ++ "-" ++ pad2 k.2

/-- One monthly trend bucket as returned to the caller. -/
structure MonthBucket where
  month : String
  amount : Int
  count : Nat
deriving DecidableEq, Repr

/-- The entries of the set falling in a given (year, month) bucket. -/
def monthEntries (es : List Entry) (k : Nat × Nat) : List Entry :=
  es.filter (fun e => monthKey e == k)

/-- The distinct (year, month) keys present in the set, sorted
chronologically ascending. -/
def monthlyTrendKeys (es : List Entry) : List (Nat × Nat) :=
  sortBy monthKeyLe (es.map monthKey).dedup

/-- The bucket of a given key: the amount sum and entry count of that month. -/
def monthBucket (es : List Entry) (k : Nat × Nat) : MonthBucket :=
  { month := monthLabel k,
    amount := ((monthEntries es k).map (fun e => e.amount)).sum,
    count := (monthEntries es k).length }

/-- The monthly trend over an already-scoped entry set. -/
def monthlyTrend (es : List Entry) : List MonthBucket :=
  (monthlyTrendKeys es).map (monthBucket es)

/-! The by-project aggregation of getIncomeByProject (group by projectId,
sum and count, sort by total descending, then join project names with an
Unknown fallback). -/

/-- One row of the by-project result. -/
structure ProjectRow where
  projectId : String
  projectName : String
  clientName : String
  totalIncome : Int
  entryCount : Nat
deriving DecidableEq, Repr

/-- The entries of the set belonging to a given projectId. -/
def projectEntries (es : List Entry) (pid : String) : List Entry :=
  es.filter (fun e => e.projectId == pid)

/-- Output of the group stage, before the name join. -/
structure ProjectGroup where
  projectId : String
  totalIncome : Int
  entryCount : Nat
deriving DecidableEq, Repr

/-- The group of a given projectId: its amount sum and entry count. -/
def projectGroup (es : List Entry) (pid : String) : ProjectGroup :=
  { projectId := pid,
    totalIncome := ((projectEntries es pid).map (fun e => e.amount)).sum,
    entryCount := (projectEntries es pid).length }

/-- Descending comparison on group totals (the totalIncome minus-one sort
stage). -/
def groupLe (a b : ProjectGroup) : Bool := decide (b.totalIncome ≤ a.totalIncome)

/-- Group stage plus sort stage of the by-project pipeline. -/
def incomeProjectGroups (es : List Entry) : List ProjectGroup :=
  sortBy groupLe (((es.map (fun e => e.projectId)).dedup).map (projectGroup es))

/-- The read-time join of one group with the name and client name of its
project, substituting the Unknown placeholders when the owner-scoped active
lookup finds nothing. -/
def joinProjectRow (projects : List Project) (userId : String)
    (g : ProjectGroup) : ProjectRow :=
  match findProject projects g.projectId userId with
  | some p =>
      { projectId := g.projectId, projectName := p.name,
        clientName := p.clientName, totalIncome := g.totalIncome,
        entryCount := g.entryCount }
  | none =>
      { projectId := g.projectId, projectName := "Unknown Project",
        clientName := "Unknown Client", totalIncome := g.totalIncome,
        entryCount := g.entryCount }

/-- getIncomeByProject (incomeController.ts lines 368-420) over an
already-scoped entry set: group, sort descending, and join each row with
the owner-scoped active project. -/
def getIncomeByProject (projects : List Project) (userId : String)
    (es : List Entry) : List ProjectRow :=
  (incomeProjectGroups es).map (joinProjectRow projects userId)

/-! Permutation and sortedness facts about the insertion sort modelling
the pipeline sort stages. -/

theorem insertBy_perm (le : α → α → Bool) (a : α) (l : List α) :
    List.Perm (insertBy le a l) (a :: l) := by
  induction l with
  | nil => exact List.Perm.refl _
  | cons b bs ih =>
      simp only [insertBy]
      split
      · exact List.Perm.refl _
      · exact (ih.cons b).trans (List.Perm.swap a b bs)

theorem sortBy_perm (le : α → α → Bool) (l : List α) : List.Perm (sortBy le l) l := by
  induction l with
  | nil => exact List.Perm.refl _
  | cons a as ih => exact (insertBy_perm le a (sortBy le as)).trans (ih.cons a)

theorem insertBy_pairwise (le : α → α → Bool)
    (htot : ∀ x y, le x y = false → le y x = true)
    (htrans : ∀ x y z, le x y = true → le y z = true → le x z = true)
    (a : α) (l : List α) (h : l.Pairwise fun x y => le x y = true) :
    (insertBy le a l).Pairwise fun x y => le x y = true := by
  induction l with
  | nil => simp [insertBy]
  | cons b bs ih =>
      rcases List.pairwise_cons.mp h with ⟨hb, hbs⟩
      simp only [insertBy]
      split
      case isTrue hab =>
        refine List.pairwise_cons.mpr ⟨?_, h⟩
        intro y hy
        rcases List.mem_cons.mp hy with rfl | hy2
        · exact hab
        · exact htrans a b y hab (hb y hy2)
      case isFalse hab =>
        have hab2 : le a b = false := by
          revert hab; cases le a b <;> simp
        refine List.pairwise_cons.mpr ⟨?_, ih hbs⟩
        intro y hy
        rcases List.mem_cons.mp ((insertBy_perm le a bs).mem_iff.mp hy) with rfl | hy2
        · exact htot _ b hab2
        · exact hb y hy2

theorem sortBy_pairwise (le : α → α → Bool)
    (htot : ∀ x y, le x y = false → le y x = true)
    (htrans : ∀ x y z, le x y = true → le y z = true → le x z = true)
    (l : List α) : (sortBy le l).Pairwise fun x y => le x y = true := by
  induction l with
  | nil => simp [sortBy]
  | cons a as ih => exact insertBy_pairwise le htot htrans a _ ih

/-! Concrete sample data reused by the closed-instance theorems. -/

/-- A concrete future date used as a goal deadline. -/
def d2030 : DateTime := ⟨2030, 6, 1, 0, 0, 0, 0⟩

/-- A concrete present date used as the clock. -/
def d2025 : DateTime := ⟨2025, 3, 10, 12, 0, 0, 0⟩

/-- A concrete savings goal at 50 of 100. -/
def goalHalf : SavingsGoal :=
  { userId := "u1", title := "laptop", targetAmount := 100, currentAmount := 50,
    deadline := d2030, category := "other", priority := "medium",
    isActive := true, isCompleted := false }

/-- A concrete savings goal at 80 of 100 (the addProgress example of the
specification). -/
def goalEighty : SavingsGoal :=
  { userId := "u1", title := "laptop", targetAmount := 100, currentAmount := 80,
    deadline := d2030, category := "other", priority := "medium",
    isActive := true, isCompleted := false }

/-- A concrete completed savings goal whose amount fell below target. -/
def goalFallen : SavingsGoal :=
  { userId := "u1", title := "laptop", targetAmount := 100, currentAmount := 40,
    deadline := d2030, category := "other", priority := "medium",
    isActive := true, isCompleted := true }

/-! Claim C2: pagination metadata. -/

/-- Claim C2: for every non-negative total, positive page and positive
limit at most 100, calculatePagination returns pages equal to the ceiling
of total over limit (characterized by total ≤ pages * limit < total +
limit, and pages = 0 at total = 0), hasNext = (page < pages), hasPrev =
(page > 1), the skip offset (page - 1) * limit, and echoes page, limit
and total; any page, also one beyond pages, is accepted. -/
theorem calculatePagination_correct (total page limit : Nat)
    (hpage : 0 < page) (hlimit : 0 < limit) (hlimit100 : limit ≤ 100) :
    total ≤ (calculatePagination total page limit).pages * limit ∧
    (calculatePagination total page limit).pages * limit < total + limit ∧
    (total = 0 → (calculatePagination total page limit).pages = 0) ∧
    (calculatePagination total page limit).hasNext =
      decide (page < (calculatePagination total page limit).pages) ∧
    (calculatePagination total page limit).hasPrev = decide (page > 1) ∧
    getSkipValue page limit = (page - 1) * limit ∧
    (calculatePagination total page limit).page = page ∧
    (calculatePagination total page limit).limit = limit ∧
    (calculatePagination total page limit).total = total := by
  refine ⟨?_, ?_, ?_, rfl, rfl, rfl, rfl, rfl, rfl⟩
  · show total ≤ (total + limit - 1) / limit * limit
    have hdm := Nat.div_add_mod (total + limit - 1) limit
    have hmod : (total + limit - 1) % limit < limit := Nat.mod_lt _ hlimit
    rw [mul_comm]
    generalize hq : (total + limit - 1) / limit = q at hdm ⊢
    generalize hm : (total + limit - 1) % limit = m at hdm hmod
    generalize ht : limit * q = t at hdm ⊢
    omega
  · show (total + limit - 1) / limit * limit < total + limit
    have h := Nat.div_mul_le_self (total + limit - 1) limit
    omega
  · intro h0
    show (total + limit - 1) / limit = 0
    exact Nat.div_eq_of_lt (by omega)

/-- Closed instance of claim C2 at total = 5, page = 2, limit = 2. -/
theorem calculatePagination_correct_witness :
    5 ≤ (calculatePagination 5 2 2).pages * 2 ∧
    (calculatePagination 5 2 2).pages * 2 < 5 + 2 ∧
    (5 = 0 → (calculatePagination 5 2 2).pages = 0) ∧
    (calculatePagination 5 2 2).hasNext =
      decide (2 < (calculatePagination 5 2 2).pages) ∧
    (calculatePagination 5 2 2).hasPrev = decide (2 > 1) ∧
    getSkipValue 2 2 = (2 - 1) * 2 ∧
    (calculatePagination 5 2 2).page = 2 ∧
    (calculatePagination 5 2 2).limit = 2 ∧
    (calculatePagination 5 2 2).total = 5 :=
  calculatePagination_correct 5 2 2 (by decide) (by decide) (by decide)

/-! Claim C3: overdraft on subtractProgress is rejected, not clamped. -/

/-- Claim C3: for every savings goal with a non-negative current amount
and every requested subtraction strictly greater than it, the
progress-update operation fails with the overdraft rejection error (the
InsufficientProgress failure of the specification) and the stored goal is
unchanged; the clamp-to-zero helper is not on this caller-visible path. -/
theorem subtractProgress_overdraft_rejected (g : SavingsGoal) (amount : Int)
    (hcur : 0 ≤ g.currentAmount) (hover : g.currentAmount < amount) :
    updateSavingsGoalProgress g amount "subtract" =
      .error (.badRequest "Cannot subtract more than current amount") ∧
    storedAfterProgress g amount "subtract" = g := by
  have h1 : ¬ (amount ≤ 0) := by omega
  have h2 : ¬ (("subtract" : String) ≠ "add" ∧ ("subtract" : String) ≠ "subtract") := by
    simp
  have h3 : ¬ (("subtract" : String) = "add") := by decide
  have h4 : g.currentAmount - amount < 0 := by omega
  constructor
  · rw [updateSavingsGoalProgress, if_neg h1, if_neg h2, if_neg h3, if_pos h4]
  · rw [storedAfterProgress, updateSavingsGoalProgress, if_neg h1, if_neg h2,
      if_neg h3, if_pos h4]

/-- Closed instance of claim C3: subtracting 60 from a goal at 50 is
rejected and the goal keeps its state. -/
theorem subtractProgress_overdraft_rejected_witness :
    updateSavingsGoalProgress goalHalf 60 "subtract" =
      .error (.badRequest "Cannot subtract more than current amount") ∧
    storedAfterProgress goalHalf 60 "subtract" = goalHalf :=
  subtractProgress_overdraft_rejected goalHalf 60 (by decide) (by decide)

/-! Claim C4: the completion transition of the savings progress engine. -/

/-- Claim C4: every persist (the completion hook runs on each save) sets
isCompleted once currentAmount has reached targetAmount and keeps the
amount as is (overshoot is not clamped); the addProgress example at 80 of
100 plus 25 yields 105 and completed; no persist ever sets isCompleted
back to false, and after the explicit mark-active operation the goal is
incomplete exactly while the amount is below target. -/
theorem savings_completion_transition (g : SavingsGoal) :
    (g.targetAmount ≤ g.currentAmount → (saveGoal g).isCompleted = true) ∧
    (saveGoal g).currentAmount = g.currentAmount ∧
    (g.isCompleted = true → (saveGoal g).isCompleted = true) ∧
    (g.currentAmount = 80 → g.targetAmount = 100 → g.isCompleted = false →
      updateSavingsGoalProgress g 25 "add" =
        .ok { g with currentAmount := 105, isCompleted := true }) ∧
    (g.currentAmount < g.targetAmount → (SavingsGoal.markActive g).isCompleted = false) := by
  refine ⟨?_, ?_, ?_, ?_, ?_⟩
  · intro hge
    rw [saveGoal]
    split
    · rfl
    case isFalse hn =>
      rcases Decidable.not_and_iff_or_not.mp hn with h | h
      · exact absurd hge h
      · simpa using h
  · rw [saveGoal]; split <;> rfl
  · intro hc
    rw [saveGoal]; split <;> simp [hc]
  · intro h80 h100 hnc
    have hcond : ({ g with currentAmount := g.currentAmount + 25 } :
          SavingsGoal).currentAmount ≥
        ({ g with currentAmount := g.currentAmount + 25 } :
          SavingsGoal).targetAmount ∧
        ({ g with currentAmount := g.currentAmount + 25 } :
          SavingsGoal).isCompleted = false := by
      constructor
      · show g.targetAmount ≤ g.currentAmount + 25
        omega
      · exact hnc
    rw [updateSavingsGoalProgress, if_neg (by omega), if_neg (by simp),
      if_pos rfl, saveGoal, if_pos hcond]
    have h105 : g.currentAmount + 25 = 105 := by omega
    rw [h105]
  · intro hlt
    rw [SavingsGoal.markActive, saveGoal]
    rw [if_neg (fun h => absurd h.1 (not_le.mpr hlt))]

/-- Closed instance of claim C4 on concrete goals: the 80-plus-25 example
completes at 105, a completed goal whose amount fell to 40 of 100 stays
completed across a persist, and mark-active on it returns it to the
active state. -/
theorem savings_completion_transition_witness :
    updateSavingsGoalProgress goalEighty 25 "add" =
      .ok { goalEighty with currentAmount := 105, isCompleted := true } ∧
    (saveGoal goalFallen).isCompleted = true ∧
    (SavingsGoal.markActive goalFallen).isCompleted = false :=
  ⟨(savings_completion_transition goalEighty).2.2.2.1 (by decide) (by decide) (by decide),
   (savings_completion_transition goalFallen).2.2.1 (by decide),
   (savings_completion_transition goalFallen).2.2.2.2 (by decide)⟩

/-! Claim C10: completion fires already on the creating persist. -/

/-- Claim C10: creating a savings goal with valid title, positive target,
non-negative current amount and a future deadline, where the supplied
current amount already reaches the target, stores a goal with isCompleted
true: the creation path initializes isCompleted to false in goalData, but
the completion hook fires on the creating persist itself. -/
theorem createSavingsGoal_completes_on_create (userId title : String)
    (targetAmount currentAmount : Int) (deadline : DateTime)
    (category priority : String) (now : DateTime)
    (htitle : title ≠ "") (hta : 0 < targetAmount) (hca : 0 ≤ currentAmount)
    (hdl : now.key < deadline.key) (hdone : targetAmount ≤ currentAmount) :
    createSavingsGoal userId title targetAmount currentAmount deadline
        category priority now =
      .ok { userId := userId, title := title, targetAmount := targetAmount,
            currentAmount := currentAmount, deadline := deadline,
            category := category,
            priority := if priority = "" then "medium" else priority,
            isActive := true, isCompleted := true } := by
  have hca0 : currentAmount ≠ 0 := by omega
  rw [createSavingsGoal, if_neg (by push_neg; exact ⟨htitle, by omega⟩),
    if_neg (by omega), if_neg (by push_neg; intro _; omega), if_neg (by omega),
    saveGoal]
  rw [if_pos (by simp [if_neg hca0]; omega)]
  simp [if_neg hca0]

/-- Closed instance of claim C10: creating a goal with target 100 and
current amount 150 stores it already completed. -/
theorem createSavingsGoal_completes_on_create_witness :
    createSavingsGoal "u1" "vacation" 100 150 d2030 "other" "" d2025 =
      .ok { userId := "u1", title := "vacation", targetAmount := 100,
            currentAmount := 150, deadline := d2030, category := "other",
            priority := if "" = "" then "medium" else "",
            isActive := true, isCompleted := true } :=
  createSavingsGoal_completes_on_create "u1" "vacation" 100 150 d2030 "other"
    "" d2025 (by decide) (by decide) (by decide) (by decide) (by decide)

/-! Claim C1: mandatory, non-overridable owner and active-only scoping. -/

theorem entryMatches_scope (q : EntryQuery) (e : Entry)
    (h : entryMatches q e = true) :
    (e.userId == q.userId) = true ∧ (e.isActive == q.isActive) = true := by
  simp only [entryMatches, Bool.and_eq_true] at h
  exact ⟨h.1.1.1.1.1, h.1.1.1.1.2⟩

theorem entryMatches_of_scope (q : EntryQuery) (e : Entry)
    (hp : q.projectId = none) (hc : q.category = none) (hg : q.dateGte = none)
    (hl : q.dateLte = none) (h1 : (e.userId == q.userId) = true)
    (h2 : (e.isActive == q.isActive) = true) : entryMatches q e = true := by
  simp [entryMatches, hp, hc, hg, hl, h1, h2]

theorem goalMatches_scope (q : SavingsQuery) (g : SavingsGoal)
    (h : goalMatches q g = true) :
    (g.userId == q.userId) = true ∧ (g.isActive == q.isActive) = true := by
  simp only [goalMatches, Bool.and_eq_true] at h
  exact ⟨h.1.1.1.1, h.1.1.1.2⟩

theorem goalMatches_of_scope (q : SavingsQuery) (g : SavingsGoal)
    (hs : q.isCompleted = none) (hc : q.category = none) (hp : q.priority = none)
    (h1 : (g.userId == q.userId) = true) (h2 : (g.isActive == q.isActive) = true) :
    goalMatches q g = true := by
  simp [goalMatches, hs, hc, hp, h1, h2]

theorem projectMatches_scope (q : ProjectQuery) (p : Project)
    (h : projectMatches q p = true) :
    (p.userId == q.userId) = true ∧ (p.isActive == q.isActive) = true := by
  simp only [projectMatches, Bool.and_eq_true] at h
  exact ⟨h.1.1, h.1.2⟩

theorem projectMatches_of_scope (q : ProjectQuery) (p : Project)
    (hs : q.status = none) (h1 : (p.userId == q.userId) = true)
    (h2 : (p.isActive == q.isActive) = true) : projectMatches q p = true := by
  simp [projectMatches, hs, h1, h2]

/-- Claim C1: every query descriptor built by the list and stats
operations carries userId equal to the owner id and isActive equal to
true, whatever the caller-supplied filters; and the filters only restrict
the matched set: a record matching the filtered descriptor also matches
the purely owner/active-scoped descriptor built with no filters. -/
theorem query_owner_scoping (uid : String) (pid cat st pr : Option String)
    (sd ed : Option DateTime) :
    ((buildIncomeQuery uid pid cat sd ed).userId = uid ∧
      (buildIncomeQuery uid pid cat sd ed).isActive = true ∧
      ∀ e, entryMatches (buildIncomeQuery uid pid cat sd ed) e = true →
        entryMatches (buildIncomeQuery uid none none none none) e = true) ∧
    ((buildExpenseQuery uid pid cat sd ed).userId = uid ∧
      (buildExpenseQuery uid pid cat sd ed).isActive = true ∧
      ∀ e, entryMatches (buildExpenseQuery uid pid cat sd ed) e = true →
        entryMatches (buildExpenseQuery uid none none none none) e = true) ∧
    ((buildStatsMatch uid sd ed).userId = uid ∧
      (buildStatsMatch uid sd ed).isActive = true ∧
      ∀ e, entryMatches (buildStatsMatch uid sd ed) e = true →
        entryMatches (buildStatsMatch uid none none) e = true) ∧
    ((buildSavingsQuery uid st cat pr).userId = uid ∧
      (buildSavingsQuery uid st cat pr).isActive = true ∧
      ∀ g, goalMatches (buildSavingsQuery uid st cat pr) g = true →
        goalMatches (buildSavingsQuery uid none none none) g = true) ∧
    ((buildProjectQuery uid st).userId = uid ∧
      (buildProjectQuery uid st).isActive = true ∧
      ∀ p, projectMatches (buildProjectQuery uid st) p = true →
        projectMatches (buildProjectQuery uid none) p = true) := by
  refine ⟨⟨rfl, rfl, ?_⟩, ⟨rfl, rfl, ?_⟩, ⟨rfl, rfl, ?_⟩, ⟨rfl, rfl, ?_⟩,
    ⟨rfl, rfl, ?_⟩⟩
  · intro e h
    obtain ⟨h1, h2⟩ := entryMatches_scope _ _ h
    exact entryMatches_of_scope _ _ rfl rfl rfl rfl h1 h2
  · intro e h
    obtain ⟨h1, h2⟩ := entryMatches_scope _ _ h
    exact entryMatches_of_scope _ _ rfl rfl rfl rfl h1 h2
  · intro e h
    obtain ⟨h1, h2⟩ := entryMatches_scope _ _ h
    exact entryMatches_of_scope _ _ rfl rfl rfl rfl h1 h2
  · intro g h
    obtain ⟨h1, h2⟩ := goalMatches_scope _ _ h
    exact goalMatches_of_scope _ _ rfl rfl rfl h1 h2
  · intro p h
    obtain ⟨h1, h2⟩ := projectMatches_scope _ _ h
    exact projectMatches_of_scope _ _ rfl h1 h2

/-- A concrete income entry dated 2024-01-31T23:00:00. -/
def entryJan31 : Entry :=
  { userId := "u1", projectId := "p1", amount := 10, description := "d",
    date := ⟨2024, 1, 31, 23, 0, 0, 0⟩, category := "other", isActive := true }

/-- A concrete income entry dated 2024-02-01T00:00:01. -/
def entryFeb1 : Entry :=
  { userId := "u1", projectId := "p1", amount := 10, description := "d",
    date := ⟨2024, 2, 1, 0, 0, 1, 0⟩, category := "other", isActive := true }

/-- A concrete bonus income entry used by the scoping witness. -/
def entryBonus : Entry :=
  { userId := "u1", projectId := "p1", amount := 10, description := "d",
    date := ⟨2024, 3, 1, 0, 0, 0, 0⟩, category := "bonus", isActive := true }

/-- Closed instance of claim C1: a fully filtered income query still
carries the owner id, and a record matching it also matches the bare
owner/active query. -/
theorem query_owner_scoping_witness :
    (buildIncomeQuery "u1" (some "p1") (some "bonus") none none).userId = "u1" ∧
    (buildIncomeQuery "u1" (some "p1") (some "bonus") none none).isActive = true ∧
    entryMatches (buildIncomeQuery "u1" none none none none) entryBonus = true :=
  ⟨(query_owner_scoping "u1" (some "p1") (some "bonus") none none none none).1.1,
   (query_owner_scoping "u1" (some "p1") (some "bonus") none none none none).1.2.1,
   (query_owner_scoping "u1" (some "p1") (some "bonus") none none none
      none).1.2.2 entryBonus (by decide)⟩

/-! Claim C5: date-range filtering and end-of-day normalization. -/

/-- Claim C5: a start date constrains the match set to dates at or after
it; an end date is normalized to the last millisecond of its calendar day
before being applied as an upper bound, so with end 2024-01-31 an entry
dated 2024-01-31T23:00:00 is included and one dated 2024-02-01T00:00:01
is excluded. -/
theorem dateRange_filter (uid : String) (sd ed : DateTime) (e : Entry) :
    (buildIncomeQuery uid none none none (some ed)).dateLte =
      some (setEndOfDay ed) ∧
    entryMatches (buildIncomeQuery uid none none (some sd) none) e =
      (entryMatches (buildIncomeQuery uid none none none none) e &&
        decide (sd.key ≤ e.date.key)) ∧
    entryMatches (buildIncomeQuery uid none none none (some ed)) e =
      (entryMatches (buildIncomeQuery uid none none none none) e &&
        decide (e.date.key ≤ (setEndOfDay ed).key)) ∧
    entryMatches
      (buildIncomeQuery "u1" none none none (some ⟨2024, 1, 31, 0, 0, 0, 0⟩))
      entryJan31 = true ∧
    entryMatches
      (buildIncomeQuery "u1" none none none (some ⟨2024, 1, 31, 0, 0, 0, 0⟩))
      entryFeb1 = false := by
  refine ⟨rfl, ?_, ?_, by decide, by decide⟩
  · simp [entryMatches, buildIncomeQuery, getDateRange, strTruthy,
      Bool.and_assoc]
  · simp [entryMatches, buildIncomeQuery, getDateRange, strTruthy,
      Bool.and_assoc]

/-! Claim C9: handling of unrecognized filter values. -/

/-- Counterexample to claim C9 as stated: the savings-goal category
filter has no enum guard — an unrecognized category supplied by the
caller is applied verbatim as a filter, so the result set differs from
the one with the filter absent (a goal in the other category matches the
unfiltered query but not the filtered one). -/
theorem savingsCategory_not_ignored :
    (buildSavingsQuery "u1" none (some "not-a-category") none).category =
      some "not-a-category" ∧
    goalMatches (buildSavingsQuery "u1" none none none) goalHalf = true ∧
    goalMatches (buildSavingsQuery "u1" none (some "not-a-category") none)
      goalHalf = false := by
  decide

/-- Claim C9 amended: unrecognized income and expense categories, project
statuses, savings priorities and savings statuses are silently dropped
from the query (the descriptor equals the one built with the filter
absent, and the builders are total, never rejecting); the savings-goal
category filter is the exception: any non-empty caller value is applied
verbatim as an exact-match filter. -/
theorem unrecognized_filters_ignored (uid : String) (pid st cat pr : Option String)
    (sd ed : Option DateTime) (c1 c2 s1 s2 p1 c3 : String)
    (hc1 : incomeCategories.contains c1 = false)
    (hc2 : expenseCategories.contains c2 = false)
    (hs1 : s1 ≠ "" ∧ projectStatuses.contains s1 = false)
    (hs2 : s2 ≠ "active" ∧ s2 ≠ "completed")
    (hp1 : savingsPriorities.contains p1 = false)
    (hc3 : c3 ≠ "") :
    buildIncomeQuery uid pid (some c1) sd ed = buildIncomeQuery uid pid none sd ed ∧
    buildExpenseQuery uid pid (some c2) sd ed = buildExpenseQuery uid pid none sd ed ∧
    buildProjectQuery uid (some s1) = buildProjectQuery uid none ∧
    buildSavingsQuery uid (some s2) cat pr = buildSavingsQuery uid none cat pr ∧
    buildSavingsQuery uid st cat (some p1) = buildSavingsQuery uid st cat none ∧
    (buildSavingsQuery uid st (some c3) pr).category = some c3 := by
  refine ⟨?_, ?_, ?_, ?_, ?_, ?_⟩
  · simp [buildIncomeQuery, hc1]
    exact fun _ => by simpa using hc1
  · simp [buildExpenseQuery, hc2]
    exact fun _ => by simpa using hc2
  · simp [buildProjectQuery, hs1.2]
    exact fun _ => by simpa using hs1.2
  · simp [buildSavingsQuery, hs2.1, hs2.2]
  · simp [buildSavingsQuery, hp1]
    exact fun _ => by simpa using hp1
  · simp [buildSavingsQuery, hc3]

/-- Closed instance of the amended claim C9 at concrete unrecognized
values. -/
theorem unrecognized_filters_ignored_witness :
    buildIncomeQuery "u1" none (some "bogus") none none =
      buildIncomeQuery "u1" none none none none ∧
    buildExpenseQuery "u1" none (some "bogus") none none =
      buildExpenseQuery "u1" none none none none ∧
    buildProjectQuery "u1" (some "bogus") = buildProjectQuery "u1" none ∧
    buildSavingsQuery "u1" (some "bogus") none none =
      buildSavingsQuery "u1" none none none ∧
    buildSavingsQuery "u1" none none (some "bogus") =
      buildSavingsQuery "u1" none none none ∧
    (buildSavingsQuery "u1" none (some "bogus") none).category = some "bogus" :=
  unrecognized_filters_ignored "u1" none none none none none none "bogus"
    "bogus" "bogus" "bogus" "bogus" "bogus" (by decide) (by decide)
    ⟨by decide, by decide⟩ ⟨by decide, by decide⟩ (by decide) (by decide)

/-! Claim C8: a failed project-reference check on entry writes is
NotFound, and nothing is written. -/

/-- Claim C8: creating an income or expense entry (or changing the
project of an existing income entry) whose projectId names no active
project owned by the caller — a project of a different user included —
fails with the NotFound error, not a bad-request one, and the store is
unchanged. -/
theorem entry_project_check_notFound (projects : List Project)
    (entries : List Entry) (uid : String) (i : CreateEntryInput) (e : Entry)
    (u : UpdateEntryInput)
    (hpid : i.projectId ≠ "") (hamt : 0 < i.amount) (hdesc : i.description ≠ "")
    (hnone : findProject projects i.projectId uid = none) :
    createIncomeEntry projects entries uid i =
      .error (.notFound "Project not found") ∧
    storedAfterCreateIncome projects entries uid i = entries ∧
    createExpenseEntry projects entries uid i =
      .error (.notFound "Project not found") ∧
    (∀ p, u.projectId = some p → p ≠ "" → p ≠ e.projectId →
      findProject projects p uid = none →
      (u.amount.isSome → 0 < u.amount.getD 0) →
      (strTruthy u.category = true → incomeCategories.contains (u.category.getD "") = true) →
      updateIncomeEntry projects e uid u = .error (.notFound "Project not found") ∧
      storedAfterUpdateIncome projects e uid u = e) := by
  have hv1 : ¬ (i.projectId = "" ∨ i.amount = 0 ∨ i.description = "") := by
    push_neg
    exact ⟨hpid, by omega, hdesc⟩
  have hv2 : ¬ (i.amount ≤ 0) := by omega
  have hcreate : createIncomeEntry projects entries uid i =
      .error (.notFound "Project not found") := by
    rw [createIncomeEntry, if_neg hv1, if_neg hv2, hnone]
  refine ⟨hcreate, ?_, ?_, ?_⟩
  · rw [storedAfterCreateIncome, hcreate]
  · rw [createExpenseEntry, if_neg hv1, if_neg hv2, hnone]
  · intro p hup hp0 hpe hpnone hua huc
    have h1 : ¬ (u.amount.isSome = true ∧ u.amount.getD 0 ≤ 0) := by
      rintro ⟨ha, hle⟩
      exact absurd (hua ha) (by omega)
    have h2 : ¬ (strTruthy u.category = true ∧
        ¬ incomeCategories.contains (u.category.getD "") = true) := by
      rintro ⟨ha, hn⟩
      exact hn (huc ha)
    have h3 : strTruthy u.projectId = true ∧ u.projectId.getD "" ≠ e.projectId ∧
        (findProject projects (u.projectId.getD "") uid).isNone = true := by
      rw [hup]
      refine ⟨by simpa [strTruthy] using hp0, by simpa using hpe, ?_⟩
      simp [hpnone]
    have hupd : updateIncomeEntry projects e uid u =
        .error (.notFound "Project not found") := by
      rw [updateIncomeEntry, if_neg h1, if_neg h2, if_pos h3]
    exact ⟨hupd, by rw [storedAfterUpdateIncome, hupd]⟩

/-- A concrete project owned by user u2. -/
def projectOfU2 : Project :=
  { id := "p9", userId := "u2", name := "Rebrand", clientName := "Acme",
    status := "active", isActive := true }

/-- A concrete create-entry input referencing the project of user u2. -/
def inputForeignProject : CreateEntryInput :=
  { projectId := "p9", amount := 25, description := "logo work",
    date := ⟨2024, 5, 1, 0, 0, 0, 0⟩, category := "project-payment" }

/-- A concrete update input moving an entry onto the project of user
u2. -/
def updateForeignProject : UpdateEntryInput :=
  { projectId := some "p9", amount := none, description := none,
    date := none, category := none }

/-- Closed instance of claim C8: user u1 referencing the project of
user u2 gets NotFound on create and on project-changing update, and the
store keeps its state. -/
theorem entry_project_check_notFound_witness :
    createIncomeEntry [projectOfU2] [] "u1" inputForeignProject =
      .error (.notFound "Project not found") ∧
    storedAfterCreateIncome [projectOfU2] [] "u1" inputForeignProject = [] ∧
    createExpenseEntry [projectOfU2] [] "u1" inputForeignProject =
      .error (.notFound "Project not found") ∧
    updateIncomeEntry [projectOfU2] entryBonus "u1" updateForeignProject =
      .error (.notFound "Project not found") ∧
    storedAfterUpdateIncome [projectOfU2] entryBonus "u1" updateForeignProject =
      entryBonus := by
  have h := entry_project_check_notFound [projectOfU2] [] "u1"
    inputForeignProject entryBonus updateForeignProject (by decide) (by decide)
    (by decide) (by decide)
  refine ⟨h.1, h.2.1, h.2.2.1, ?_, ?_⟩
  · exact (h.2.2.2 "p9" rfl (by decide) (by decide) (by decide)
      (by intro hs; simp [updateForeignProject] at hs)
      (by intro hs; simp [updateForeignProject, strTruthy] at hs)).1
  · exact (h.2.2.2 "p9" rfl (by decide) (by decide) (by decide)
      (by intro hs; simp [updateForeignProject] at hs)
      (by intro hs; simp [updateForeignProject, strTruthy] at hs)).2

/-! Claim C6: the monthly trend aggregation. -/

theorem monthKeyLe_total (x y : Nat × Nat) (h : monthKeyLe x y = false) :
    monthKeyLe y x = true := by
  simp only [monthKeyLe, Bool.or_eq_false_iff, Bool.or_eq_true,
    Bool.and_eq_false_iff, Bool.and_eq_true, decide_eq_false_iff_not,
    decide_eq_true_eq, beq_iff_eq, beq_eq_false_iff_ne] at h ⊢
  omega

theorem monthKeyLe_trans (x y z : Nat × Nat) (h1 : monthKeyLe x y = true)
    (h2 : monthKeyLe y z = true) : monthKeyLe x z = true := by
  simp only [monthKeyLe, Bool.or_eq_true, Bool.and_eq_true,
    decide_eq_true_eq, beq_iff_eq] at h1 h2 ⊢
  omega

/-- The first income entry of the trend example: 100 on 2024-01-15. -/
def entryT1 : Entry :=
  { userId := "u1", projectId := "p1", amount := 100, description := "d",
    date := ⟨2024, 1, 15, 0, 0, 0, 0⟩, category := "other", isActive := true }

/-- The second income entry of the trend example: 50 on 2024-01-20. -/
def entryT2 : Entry :=
  { userId := "u1", projectId := "p1", amount := 50, description := "d",
    date := ⟨2024, 1, 20, 0, 0, 0, 0⟩, category := "other", isActive := true }

/-- The third income entry of the trend example: 200 on 2024-02-03. -/
def entryT3 : Entry :=
  { userId := "u1", projectId := "p2", amount := 200, description := "d",
    date := ⟨2024, 2, 3, 0, 0, 0, 0⟩, category := "other", isActive := true }

/-- Claim C6: the monthly trend over a scoped entry set buckets the
records by calendar year and month, one bucket per month that has
records (the bucket keys are exactly the distinct month keys present in
the set, without duplicates), sorted chronologically ascending, each
bucket carrying the YYYY-MM zero-padded label and the amount sum and
record count of that month (hence never a zero-record bucket); on the
example set the trend is [(2024-01, 150, 2), (2024-02, 200, 1)]. -/
theorem monthlyTrend_correct (es : List Entry) :
    monthlyTrend [entryT1, entryT2, entryT3] =
      [{ month := "2024-01", amount := 150, count := 2 },
       { month := "2024-02", amount := 200, count := 1 }] ∧
    (monthlyTrendKeys es).Pairwise (fun a b => monthKeyLe a b = true) ∧
    (monthlyTrendKeys es).Nodup ∧
    (∀ k, k ∈ monthlyTrendKeys es ↔ k ∈ es.map monthKey) ∧
    monthlyTrend es = (monthlyTrendKeys es).map (monthBucket es) ∧
    (∀ b, b ∈ monthlyTrend es →
      0 < b.count ∧ ∃ k, k ∈ monthlyTrendKeys es ∧ b = monthBucket es k ∧
        b.month = monthLabel k) := by
  refine ⟨by decide, ?_, ?_, ?_, rfl, ?_⟩
  · exact sortBy_pairwise monthKeyLe monthKeyLe_total monthKeyLe_trans _
  · exact ((sortBy_perm monthKeyLe _).nodup_iff).mpr (List.nodup_dedup _)
  · intro k
    exact (sortBy_perm monthKeyLe _).mem_iff.trans (List.mem_dedup)
  · intro b hb
    obtain ⟨k, hk, rfl⟩ := List.mem_map.mp hb
    have hkm : k ∈ es.map monthKey :=
      ((sortBy_perm monthKeyLe _).mem_iff.trans (List.mem_dedup)).mp hk
    obtain ⟨e, he, hke⟩ := List.mem_map.mp hkm
    have hmem : e ∈ monthEntries es k :=
      List.mem_filter.mpr ⟨he, by simp [hke]⟩
    exact ⟨List.length_pos_of_mem hmem, k, hk, rfl, rfl⟩

/-- Closed instance of claim C6 on the example set: January 2024 is a
bucket key and its bucket has a positive count. -/
theorem monthlyTrend_correct_witness :
    (2024, 1) ∈ monthlyTrendKeys [entryT1, entryT2, entryT3] ∧
    0 < (monthBucket [entryT1, entryT2, entryT3] (2024, 1)).count :=
  ⟨((monthlyTrend_correct [entryT1, entryT2, entryT3]).2.2.2.1
      (2024, 1)).mpr (by decide),
   ((monthlyTrend_correct [entryT1, entryT2, entryT3]).2.2.2.2.2
      (monthBucket [entryT1, entryT2, entryT3] (2024, 1)) (by decide)).1⟩

/-! Claim C7: the by-project breakdown. -/

theorem groupLe_total (x y : ProjectGroup) (h : groupLe x y = false) :
    groupLe y x = true := by
  simp only [groupLe, decide_eq_false_iff_not, decide_eq_true_eq, not_le] at h ⊢
  omega

theorem groupLe_trans (x y z : ProjectGroup) (h1 : groupLe x y = true)
    (h2 : groupLe y z = true) : groupLe x z = true := by
  simp only [groupLe, decide_eq_true_eq] at h1 h2 ⊢
  omega

theorem joinProjectRow_projectId (projects : List Project) (uid : String)
    (g : ProjectGroup) : (joinProjectRow projects uid g).projectId = g.projectId := by
  unfold joinProjectRow
  cases findProject projects g.projectId uid <;> rfl

theorem joinProjectRow_totalIncome (projects : List Project) (uid : String)
    (g : ProjectGroup) : (joinProjectRow projects uid g).totalIncome = g.totalIncome := by
  unfold joinProjectRow
  cases findProject projects g.projectId uid <;> rfl

theorem joinProjectRow_entryCount (projects : List Project) (uid : String)
    (g : ProjectGroup) : (joinProjectRow projects uid g).entryCount = g.entryCount := by
  unfold joinProjectRow
  cases findProject projects g.projectId uid <;> rfl

theorem incomeProjectGroups_mem (es : List Entry) (g : ProjectGroup)
    (hg : g ∈ incomeProjectGroups es) :
    ∃ pid, pid ∈ es.map (fun e => e.projectId) ∧ g = projectGroup es pid := by
  have hg2 := (sortBy_perm groupLe _).mem_iff.mp hg
  obtain ⟨pid, hpid, rfl⟩ := List.mem_map.mp hg2
  exact ⟨pid, List.mem_dedup.mp hpid, rfl⟩

theorem getIncomeByProject_ids (projects : List Project) (uid : String)
    (es : List Entry) :
    (getIncomeByProject projects uid es).map (fun r => r.projectId) =
      (incomeProjectGroups es).map (fun g => g.projectId) := by
  rw [getIncomeByProject, List.map_map]
  exact List.map_congr_left fun g _ => joinProjectRow_projectId projects uid g

theorem incomeProjectGroups_ids_perm (es : List Entry) :
    List.Perm ((incomeProjectGroups es).map (fun g => g.projectId))
      (es.map (fun e => e.projectId)).dedup := by
  have h := (sortBy_perm groupLe
      (((es.map (fun e => e.projectId)).dedup).map (projectGroup es))).map
    (fun g => g.projectId)
  rw [List.map_map] at h
  have h2 : ∀ l : List String,
      List.map ((fun g => g.projectId) ∘ projectGroup es) l = l := by
    intro l
    induction l with
    | nil => rfl
    | cons a l ih =>
        simp only [List.map_cons, ih, Function.comp]
        rfl
  rw [h2] at h
  exact h

/-- Claim C7: the by-project breakdown has exactly one row per distinct
projectId present in the scoped entry set (an id with no entries yields
no row), each row carries the amount sum and entry count of that project
(hence a positive count), the rows are sorted by total amount descending,
and a row whose owner-scoped active project lookup fails carries the
Unknown Project / Unknown Client placeholders instead of failing the
aggregation (which is total by construction); a successful lookup
supplies the stored name and client name. -/
theorem incomeByProject_correct (projects : List Project) (uid : String)
    (es : List Entry) :
    (∀ pid, pid ∈ (getIncomeByProject projects uid es).map (fun r => r.projectId) ↔
      pid ∈ es.map (fun e => e.projectId)) ∧
    ((getIncomeByProject projects uid es).map (fun r => r.projectId)).Nodup ∧
    (getIncomeByProject projects uid es).Pairwise
      (fun a b => b.totalIncome ≤ a.totalIncome) ∧
    (∀ r, r ∈ getIncomeByProject projects uid es →
      r.totalIncome = ((projectEntries es r.projectId).map (fun e => e.amount)).sum ∧
      r.entryCount = (projectEntries es r.projectId).length ∧
      0 < r.entryCount ∧
      (findProject projects r.projectId uid = none →
        r.projectName = "Unknown Project" ∧ r.clientName = "Unknown Client") ∧
      (∀ p, findProject projects r.projectId uid = some p →
        r.projectName = p.name ∧ r.clientName = p.clientName)) := by
  refine ⟨?_, ?_, ?_, ?_⟩
  · intro pid
    rw [getIncomeByProject_ids]
    exact ((incomeProjectGroups_ids_perm es).mem_iff).trans List.mem_dedup
  · rw [getIncomeByProject_ids]
    exact ((incomeProjectGroups_ids_perm es).nodup_iff).mpr (List.nodup_dedup _)
  · refine List.Pairwise.map _ ?_
      (sortBy_pairwise groupLe groupLe_total groupLe_trans _)
    intro a b hab
    rw [joinProjectRow_totalIncome, joinProjectRow_totalIncome]
    simpa [groupLe] using hab
  · intro r hr
    obtain ⟨g, hg, rfl⟩ := List.mem_map.mp hr
    obtain ⟨pid, hpid, rfl⟩ := incomeProjectGroups_mem es g hg
    have hid : (joinProjectRow projects uid (projectGroup es pid)).projectId = pid :=
      joinProjectRow_projectId projects uid _
    obtain ⟨e, he, hepid⟩ := List.mem_map.mp hpid
    have hmem : e ∈ projectEntries es pid :=
      List.mem_filter.mpr ⟨he, by simp [hepid]⟩
    refine ⟨?_, ?_, ?_, ?_, ?_⟩
    · rw [hid, joinProjectRow_totalIncome]; rfl
    · rw [hid, joinProjectRow_entryCount]; rfl
    · rw [joinProjectRow_entryCount]
      exact List.length_pos_of_mem hmem
    · intro hnone
      rw [hid] at hnone
      unfold joinProjectRow
      rw [show (projectGroup es pid).projectId = pid from rfl, hnone]
      exact ⟨rfl, rfl⟩
    · intro p hsome
      rw [hid] at hsome
      unfold joinProjectRow
      rw [show (projectGroup es pid).projectId = pid from rfl, hsome]
      exact ⟨rfl, rfl⟩

/-- Closed instance of claim C7 on the example entry set: project p1 is a
row id, a projectId absent from the set is not, and the row built for p2
(whose project is not in the table) carries the Unknown placeholders. -/
theorem incomeByProject_correct_witness :
    ("p1" ∈ (getIncomeByProject [] "u1" [entryT1, entryT2, entryT3]).map
      (fun r => r.projectId) ↔
      "p1" ∈ [entryT1, entryT2, entryT3].map (fun e => e.projectId)) ∧
    ((joinProjectRow [] "u1" (projectGroup [entryT1, entryT2, entryT3] "p2")).projectName =
        "Unknown Project" ∧
      (joinProjectRow [] "u1" (projectGroup [entryT1, entryT2, entryT3] "p2")).clientName =
        "Unknown Client") :=
  ⟨(incomeByProject_correct [] "u1" [entryT1, entryT2, entryT3]).1 "p1",
   ((incomeByProject_correct [] "u1" [entryT1, entryT2, entryT3]).2.2.2
      (joinProjectRow [] "u1" (projectGroup [entryT1, entryT2, entryT3] "p2"))
      (by decide)).2.2.2.1 (by decide)⟩

end Finance
